import Mathlib

/-!
Verification of the uk-property-analytics ingestion/merge/aggregation
pipeline against its specification.

The development shallowly embeds the pipeline's pure row-level logic:

* `src/ingest_onspd.py` — reference (postcode → coordinate) loader;
* `src/ingest_ppd.py` — transaction loader and spatial join builder;
* `src/build_heatmap_tiles.py` — grid aggregation into heatmap tiles.

Strings are handled at the character-list level so that every operation is
executable and provable.  SQLite `REAL` values and `AVG` results are modelled
as exact rationals; `INTEGER` columns as `Int`.  A loader run is a fold over
the parsed csv rows; an uncaught Python exception (`ValueError` from
`float`/`int`, `SystemExit` on missing input) is an `Except.error`.
-/

/-! ## Python string primitives -/

/-- Characters removed by Python's `str.strip()` (ASCII whitespace). -/
def isPySpace (c : Char) : Bool :=
  c == ' ' || c == '\t' || c == '\n' || c == '\r' || c == '\x0b' || c == '\x0c'

/-- Character-list embedding of `str.strip()`: drop leading and trailing
whitespace. -/
def stripChars (l : List Char) : List Char :=
  ((l.dropWhile isPySpace).reverse.dropWhile isPySpace).reverse

/-- Shorthand for `s.strip()` on a `String`. -/
def pyStrip (s : String) : String :=
  String.mk (stripChars s.data)

/-- Embedding of `normalise_postcode` (identical in `ingest_onspd.py` line
34–35 and `ingest_ppd.py` line 16–17): `pc.strip().upper().replace(" ", "")`.
Replacing every space by the empty string is filtering spaces out; `.upper()`
maps characters to upper case (the ASCII case that postcodes use). -/
def normalise_postcode (pc : String) : String :=
  String.mk (((stripChars pc.data).map Char.toUpper).filter (fun c => !(c == ' ')))

/-- Value of a run of ASCII digits accumulated onto `acc`; `none` as soon as a
non-digit appears. -/
def digitRunAux (acc : Nat) : List Char → Option Nat
  | [] => some acc
  | c :: cs => if c.isDigit then digitRunAux (acc * 10 + (c.toNat - 48)) cs else none

/-- Digit run of a Python `int()` literal, continued after at least one digit
has been read: further digits, where a single underscore may separate two
digits. -/
def pyIntDigitsAfter (acc : Nat) : List Char → Option Nat
  | [] => some acc
  | c :: cs =>
    if c.isDigit then pyIntDigitsAfter (acc * 10 + (c.toNat - 48)) cs
    else if c == '_' then
      match cs with
      | [] => none
      | d :: rest =>
        if d.isDigit then pyIntDigitsAfter (acc * 10 + (d.toNat - 48)) rest else none
    else none

/-- Digits of a Python `int()` literal after the optional sign: one or more
ASCII digits, where a single underscore may separate two digits. -/
def pyIntDigits : List Char → Option Nat
  | [] => none
  | c :: cs => if c.isDigit then pyIntDigitsAfter (c.toNat - 48) cs else none

/-- Embedding of Python `int(s)` on a string: surrounding whitespace is
ignored, then an optional sign and a digit run.  Python also accepts non-ASCII
decimal digits; those never occur in this pipeline's inputs and are outside
the model. -/
def pyInt (s : String) : Option Int :=
  match stripChars s.data with
  | '-' :: rest => (pyIntDigits rest).map (fun n => -(n : Int))
  | '+' :: rest => (pyIntDigits rest).map (fun n => (n : Int))
  | l => (pyIntDigits l).map (fun n => (n : Int))

/-- Split a character list at the first occurrence of `sep`; the second
component is `none` when `sep` does not occur. -/
def splitOnce (sep : Char) : List Char → List Char × Option (List Char)
  | [] => ([], none)
  | c :: cs =>
    if c == sep then ([], some cs)
    else
      let r := splitOnce sep cs
      (c :: r.1, r.2)

/-- Leading-sign split: the sign as an integer factor and the remainder. -/
def signSplit : List Char → Int × List Char
  | '-' :: r => (-1, r)
  | '+' :: r => (1, r)
  | l => (1, l)

/-- Value of the mantissa of a float literal: `digits`, `digits.`, `.digits`
or `digits.digits`; `none` when there is no digit at all or a stray
character appears. -/
def mantissaVal (l : List Char) : Option ℚ :=
  let p := splitOnce '.' l
  match p.2 with
  | none =>
    if p.1 = [] then none else (digitRunAux 0 p.1).map (fun n => (n : ℚ))
  | some fp =>
    if p.1 = [] && fp = [] then none
    else
      match digitRunAux 0 p.1, digitRunAux 0 fp with
      | some i, some f => some ((i : ℚ) + (f : ℚ) / (10 : ℚ) ^ fp.length)
      | _, _ => none

/-- Embedding of Python `float(s)` restricted to finite decimal literals:
optional surrounding whitespace and sign, mantissa, optional `e`/`E`
exponent.  `inf`/`nan` and underscore separators are accepted by Python but
never occur in the coordinate columns this pipeline reads; they are outside
the model.  The exact decimal value is used where Python rounds to a binary
double: no claim in this development distinguishes the two. -/
def pyFloat (s : String) : Option ℚ :=
  let l := (stripChars s.data).map Char.toLower
  let sg := signSplit l
  let me := splitOnce 'e' sg.2
  match me.2 with
  | none => (mantissaVal me.1).map (fun m => (sg.1 : ℚ) * m)
  | some e =>
    let es := signSplit e
    if es.2 = [] then none
    else
      match mantissaVal me.1, digitRunAux 0 es.2 with
      | some m, some ev => some ((sg.1 : ℚ) * m * (10 : ℚ) ^ (es.1 * (ev : Int)))
      | _, _ => none

/-- Python `a or b` for an optional string: `None` and `""` are falsy. -/
def pyOr (a : Option String) (b : String) : String :=
  match a with
  | some s => if s = "" then b else s
  | none => b

deriving instance DecidableEq for Except

/-! ## Reference loader (`src/ingest_onspd.py`) -/

/-- One `csv.DictReader` row of a reference CSV, restricted to the columns
`ingest_csv` reads through `row.get(...)`; `none` models a missing column. -/
structure OnspdRow where
  pcds : Option String
  pcd : Option String
  lat : Option String
  long : Option String
  lon : Option String
  ladcd : Option String
  ladnm : Option String
deriving DecidableEq

/-- Embedding of `pc_raw = row.get("pcds") or row.get("pcd") or ""`
(`ingest_csv`, line 90). -/
def pcRaw (r : OnspdRow) : String := pyOr r.pcds (pyOr r.pcd "")

/-- Embedding of `lat_s = (row.get("lat") or "").strip()` (line 95). -/
def latField (r : OnspdRow) : String := pyStrip (pyOr r.lat "")

/-- Embedding of `lon_s = (row.get("long") or row.get("lon") or "").strip()`
(line 96). -/
def lonField (r : OnspdRow) : String := pyStrip (pyOr r.long (pyOr r.lon ""))

/-- A row of the `postcode_geo` reference table (`ensure_schema`,
lines 46–58): key `postcode`, nullable coordinates and admin-area fields. -/
structure GeoRecord where
  postcode : String
  lat : Option ℚ
  lon : Option ℚ
  ladcd : Option String
  ladnm : Option String
deriving DecidableEq

/-- Embedding of `float(s) if s else None`: blank becomes null, a malformed
string raises `ValueError` and aborts the run. -/
def optFloat (s : String) : Except String (Option ℚ) :=
  if s = "" then .ok none
  else
    match pyFloat s with
    | some q => .ok (some q)
    | none => .error "ValueError: could not convert string to float"

/-- Embedding of `(row.get(k) or "").strip() or None` for the admin-area
columns (lines 100–101). -/
def optStrField (a : Option String) : Option String :=
  let s := pyStrip (pyOr a "")
  if s = "" then none else some s

/-- One iteration of the `ingest_csv` row loop (lines 89–103): `ok none` is a
skipped row (falsy raw postcode), `ok (some g)` the record appended to the
upsert batch, `error` the uncaught `ValueError` from `float` aborting the
run. -/
def parseOnspdRow (r : OnspdRow) : Except String (Option GeoRecord) := do
  if pcRaw r = "" then return none
  let lat ← optFloat (latField r)
  let lon ← optFloat (lonField r)
  return some
    { postcode := normalise_postcode (pcRaw r)
      lat := lat
      lon := lon
      ladcd := optStrField r.ladcd
      ladnm := optStrField r.ladnm }

/-- The reference table as a map from postcode key to its current record:
`postcode TEXT PRIMARY KEY` makes the key unique, so this is the whole
observable content. -/
abbrev GeoTable : Type := String → Option GeoRecord

/-- The table of an empty or freshly created `postcode_geo`. -/
def emptyGeoTable : GeoTable := fun _ => none

/-- Row effect of `upsert_batch` (lines 61–77): `INSERT ... ON
CONFLICT(postcode) DO UPDATE SET` every non-key column — the key now maps to
the new record, all other keys are untouched. -/
def upsertGeo (t : GeoTable) (g : GeoRecord) : GeoTable :=
  fun k => if k = g.postcode then some g else t k

/-- Successful parse of a whole reference csv: the batch contents in row
order, skipped rows left out; an error aborts at the offending row.  Batch
boundaries (`BATCH_SIZE = 50_000`) decide when commits happen but not the
final table and are not modelled. -/
def parsedGeoOps : List OnspdRow → Except String (List GeoRecord)
  | [] => .ok []
  | r :: rest =>
    match parseOnspdRow r with
    | .error e => .error e
    | .ok none => parsedGeoOps rest
    | .ok (some g) => (parsedGeoOps rest).map (fun ops => g :: ops)

/-- Apply a batch of parsed records in row order. -/
def applyGeoOps (ops : List GeoRecord) (t : GeoTable) : GeoTable :=
  ops.foldl upsertGeo t

/-- Embedding of `ingest_csv` (lines 80–113) on the parsed rows of one file,
starting from table state `t`: skip falsy raw postcodes, upsert the rest in
row order, abort on a float `ValueError`. -/
def ingestGeoCsv (rows : List OnspdRow) (t : GeoTable) : Except String GeoTable :=
  match rows with
  | [] => .ok t
  | r :: rest =>
    match parseOnspdRow r with
    | .error e => .error e
    | .ok none => ingestGeoCsv rest t
    | .ok (some g) => ingestGeoCsv rest (upsertGeo t g)

/-- The running total `ingest_csv` prints (`total += upsert_batch(...)`,
lines 106/111, where the sqlite `executemany` rowcount of this upsert
statement equals the batch length): the number of rows appended to batches,
i.e. of non-skipped rows.  Besides the row index of `enumerate` this is the
only counter the loader keeps. -/
def ingestGeoTotal : List OnspdRow → Except String Nat
  | [] => .ok 0
  | r :: rest =>
    match parseOnspdRow r with
    | .error e => .error e
    | .ok none => ingestGeoTotal rest
    | .ok (some _) => (ingestGeoTotal rest).map (fun n => n + 1)

/-- Number of rows the loop skips via `continue` (falsy raw postcode). -/
def skippedGeoRows (rows : List OnspdRow) : Nat :=
  (rows.filter (fun r => pcRaw r == "")).length

/-- A candidate input file of the reference loader: file name and parsed csv
rows.  `find_csv_files` (lines 38–43) returns the matching paths sorted; the
list is assumed given in that order. -/
abbrev CsvFile : Type := String × List OnspdRow

/-- Character-list test for `str.endswith`. -/
def endsWithChars (s suffix : List Char) : Bool :=
  suffix.reverse.isPrefixOf s.reverse

/-- Embedding of the file choice in `ingest_onspd.main` (lines 153–159): the
first file whose upper-cased name ends in `_UK.CSV`, else the first file. -/
def chooseCsvFile (csvs : List CsvFile) : Option CsvFile :=
  match csvs.find? (fun f => endsWithChars (f.1.data.map Char.toUpper) "_UK.CSV".data) with
  | some f => some f
  | none => csvs.head?

/-- Embedding of `ingest_onspd.main` after schema setup (lines 137–161): an
empty match list is a fatal `SystemExit`; otherwise exactly the chosen file
is ingested into the reference table state `t`. -/
def onspdMain (csvs : List CsvFile) (t : GeoTable) : Except String GeoTable :=
  match chooseCsvFile csvs with
  | none => .error "SystemExit: No CSV found"
  | some f => ingestGeoCsv f.2 t

/-- The Local Authority District allow-list `LAD_NAMES_REGION`
(`ingest_onspd.py` lines 15–31). -/
def LAD_NAMES_REGION : List String :=
  ["Worcester", "Wychavon", "Malvern Hills", "Bromsgrove", "Redditch", "Wyre Forest",
   "Herefordshire, County of",
   "Cheltenham", "Cotswold", "Forest of Dean", "Gloucester", "Stroud", "Tewkesbury",
   "North Warwickshire", "Nuneaton and Bedworth", "Rugby", "Stratford-on-Avon", "Warwick",
   "Cannock Chase", "East Staffordshire", "Lichfield", "Newcastle-under-Lyme",
   "South Staffordshire", "Stafford", "Staffordshire Moorlands", "Tamworth",
   "Shropshire", "Telford and Wrekin",
   "Birmingham", "Coventry", "Dudley", "Sandwell", "Solihull", "Walsall", "Wolverhampton"]

/-- Embedding of `build_region` (lines 116–134) on the reference table seen
as a row list: `CREATE TABLE postcode_geo_region AS SELECT * FROM
postcode_geo WHERE ladnm IN (allow-list) AND lat IS NOT NULL AND lon IS NOT
NULL`. -/
def build_region (geo : List GeoRecord) : List GeoRecord :=
  geo.filter (fun g =>
    (match g.ladnm with
     | some nm => LAD_NAMES_REGION.contains nm
     | none => false)
    && g.lat.isSome && g.lon.isSome)

/-! ## Transaction loader (`src/ingest_ppd.py`) -/

/-- A row of the `ppd_sales` transaction table (`ensure_schema`,
lines 20–43): key `transaction_id`; `price INTEGER NOT NULL`. -/
structure SalesRow where
  transaction_id : String
  price : Int
  transfer_date : String
  postcode : String
  property_type : Option String
  new_build : Option String
  tenure : Option String
  paon : Option String
  saon : Option String
  street : Option String
  locality : Option String
  town : Option String
  district : Option String
  county : Option String
  ppd_category_type : Option String
  record_status : Option String
deriving DecidableEq

/-- Embedding of `(row[i] or "").strip()` on a csv record (csv fields are
plain strings, so `or ""` only matters for the empty string, where `strip`
agrees). -/
def csvField (row : List String) (i : Nat) : String :=
  pyStrip (row.getD i "")

/-- Embedding of `(row[i] or "").strip() if len(row) > i else ""` followed by
`or None` (lines 160–178): a present, non-blank field or null. -/
def optCsvField (row : List String) (i : Nat) : Option String :=
  let s := if i < row.length then csvField row i else ""
  if s = "" then none else some s

/-- Per-row checks and parse of the `ingest_ppd` loop (lines 143–179):
`none` is a silently skipped row (too few columns, empty transaction id,
price not parsing as `int`, or postcode empty after normalisation), `some`
the row appended to the upsert batch. -/
def processPpdRow (row : List String) : Option SalesRow :=
  if row.length < 7 then none
  else
    let txid := csvField row 0
    if txid = "" then none
    else
      match pyInt (csvField row 1) with
      | none => none
      | some price =>
        let postcode := normalise_postcode (row.getD 3 "")
        if postcode = "" then none
        else some
          { transaction_id := txid
            price := price
            transfer_date := csvField row 2
            postcode := postcode
            property_type := optCsvField row 4
            new_build := optCsvField row 5
            tenure := optCsvField row 6
            paon := optCsvField row 7
            saon := optCsvField row 8
            street := optCsvField row 9
            locality := optCsvField row 10
            town := optCsvField row 11
            district := optCsvField row 12
            county := optCsvField row 13
            ppd_category_type := optCsvField row 14
            record_status := optCsvField row 15 }

/-- Embedding of `detect_header` (lines 46–56): `",".join(first_row).lower()`
contains both `transaction` and `identifier`, or both `price` and
`postcode`, as substrings. -/
def containsSub (s sub : List Char) : Bool :=
  s.tails.any (fun t => sub.isPrefixOf t)

/-- The lower-cased joined text of a csv row, `",".join(row).lower()`. -/
def joinedLower (row : List String) : List Char :=
  (String.intercalate "," row).data.map Char.toLower

/-- Embedding of `detect_header` (`ingest_ppd.py` lines 46–56). -/
def detect_header (first_row : List String) : Bool :=
  if first_row.isEmpty then false
  else
    let joined := joinedLower first_row
    (containsSub joined "transaction".data && containsSub joined "identifier".data)
    || (containsSub joined "price".data && containsSub joined "postcode".data)

/-- The rows `ingest_ppd` processes as data (lines 110–121): an empty file is
a fatal `SystemExit`; otherwise the first row is discarded exactly when
`detect_header` holds on it. -/
def ppdDataRows : List (List String) → Except String (List (List String))
  | [] => .error "SystemExit: file is empty"
  | first :: rest => .ok (if detect_header first then rest else first :: rest)

/-! ## Spatial join builder (`src/ingest_ppd.py`, `build_joined_tables`) -/

/-- One row of a joined table (`CREATE TABLE ... AS SELECT` of lines 200–217
and 230–247): the selected transaction columns plus resolved coordinates and
admin-area name.  The `WHERE` clause makes `lat`/`lon` non-null, so they are
plain rationals here. -/
structure JoinedRow where
  transaction_id : String
  price : Int
  transfer_date : String
  postcode : String
  property_type : Option String
  new_build : Option String
  tenure : Option String
  lat : ℚ
  lon : ℚ
  ladnm : Option String
deriving DecidableEq

/-- Embedding of `SELECT ... FROM ppd_sales p JOIN geo g ON p.postcode =
g.postcode WHERE g.lat IS NOT NULL AND g.lon IS NOT NULL`, with the tables
as row lists: one output row per matching pair with non-null coordinates.
Both joined tables (lines 200–217 for `postcode_geo`, 230–247 for
`postcode_geo_region`) use this same query over different `geo` sets. -/
def joinGeo (ppd : List SalesRow) (geo : List GeoRecord) : List JoinedRow :=
  ppd.flatMap (fun p =>
    geo.filterMap (fun g =>
      match g.lat, g.lon with
      | some la, some lo =>
        if p.postcode = g.postcode then
          some
            { transaction_id := p.transaction_id
              price := p.price
              transfer_date := p.transfer_date
              postcode := p.postcode
              property_type := p.property_type
              new_build := p.new_build
              tenure := p.tenure
              lat := la
              lon := lo
              ladnm := g.ladnm }
        else none
      | _, _ => none))

/-! ## Grid aggregator (`src/build_heatmap_tiles.py`) -/

/-- Embedding of `GRID_DEGREES = 0.01` (line 14). -/
def GRID_DEGREES : ℚ := 1 / 100

/-- Embedding of `CAST(FLOOR(x / g) * g AS REAL)` (lines 48–49): the lower
bound of the half-open grid cell containing `x`. -/
def binOf (g x : ℚ) : ℚ := (⌊x / g⌋ : ℚ) * g

/-- The `(lat_bin, lon_bin)` key the `binned` CTE assigns to a joined row. -/
def binKey (r : JoinedRow) : ℚ × ℚ :=
  (binOf GRID_DEGREES r.lat, binOf GRID_DEGREES r.lon)

/-- The prices binned into cell `b`: the `binned` CTE (lines 46–53)
restricted to one `(lat_bin, lon_bin)` group.  The `WHERE lat IS NOT NULL
AND lon IS NOT NULL AND price IS NOT NULL` guard is vacuous on the joined
row type, whose columns are non-null. -/
def cellPrices (rows : List JoinedRow) (b : ℚ × ℚ) : List Int :=
  (rows.filter (fun r => binKey r == b)).map JoinedRow.price

/-- Insert into an ascending list, keeping it ascending. -/
def insertAsc (x : Int) : List Int → List Int
  | [] => [x]
  | y :: ys => if x ≤ y then x :: y :: ys else y :: insertAsc x ys

/-- Ascending sort of the prices of one cell — the `ORDER BY price` that
drives `ROW_NUMBER()` (line 59). -/
def sortPrices (l : List Int) : List Int := l.foldr insertAsc []

/-- Embedding of the median expression (lines 69–73): `AVG(CASE WHEN rn IN
((cnt + 1) / 2, (cnt + 2) / 2) THEN price END)` per cell, where `rn =
ROW_NUMBER() OVER (... ORDER BY price)` — so the row of rank `r` is the
`r`-th element (1-based) of the cell's prices sorted ascending, `cnt` is the
cell size and `/` is SQLite integer division.  The ranks of the `IN` set
coincide when `cnt` is odd.  `AVG` averages the rows the `CASE` keeps and is
`NULL` (`none`) when none qualifies. -/
def tileMedian (l : List Int) : Option ℚ :=
  let s := sortPrices l
  let n := s.length
  let ranks := if (n + 2) / 2 = (n + 1) / 2 then [(n + 1) / 2] else [(n + 1) / 2, (n + 2) / 2]
  let vals := ranks.filterMap (fun r => s.get? (r - 1))
  if vals.length = 0 then none
  else some ((vals.map (fun z => (z : ℚ))).sum / (vals.length : ℚ))

/-- Embedding of `AVG(price)` over one cell (line 67). -/
def tileAvg (l : List Int) : ℚ :=
  ((l.map (fun z => (z : ℚ))).sum) / (l.length : ℚ)

/-- A row of the `heatmap_tiles` result table (lines 63–73): key
`(lat_bin, lon_bin)`, then `cnt AS sales_count`, `AVG(price)` and the median
expression (nullable in the schema, hence an option). -/
structure Tile where
  lat_bin : ℚ
  lon_bin : ℚ
  sales_count : Nat
  avg_price : ℚ
  median_price : Option ℚ
deriving DecidableEq

/-- The minimum sample threshold: the literal `5` of `HAVING cnt >= 5`
(line 76). -/
def MIN_SAMPLES : Nat := 5

/-- Embedding of the tile query (lines 44–77) on the chosen source table as
a row list: group the binned rows by `(lat_bin, lon_bin)` (the distinct bin
keys, `GROUP BY lat_bin, lon_bin, cnt` — `cnt` is constant per key),
aggregate count, mean and median per group, and keep the groups with `cnt >=
5`. -/
def buildTiles (rows : List JoinedRow) : List Tile :=
  ((rows.map binKey).dedup).filterMap (fun b =>
    if MIN_SAMPLES ≤ (cellPrices rows b).length then
      some
        { lat_bin := b.1
          lon_bin := b.2
          sales_count := (cellPrices rows b).length
          avg_price := tileAvg (cellPrices rows b)
          median_price := tileMedian (cellPrices rows b) }
    else none)

/-- Modelled from the spec's rank rule, for comparison with `tileMedian`:
sort the prices ascending with ranks `1..n`; if `n` is odd the median is the
value at rank `(n+1)/2`, if `n` is even it is the average of the values at
ranks `n/2` and `n/2 + 1`; an empty cell has no median. -/
def rankRuleMedian (l : List Int) : Option ℚ :=
  let s := sortPrices l
  let n := s.length
  if n = 0 then none
  else if n % 2 = 1 then (s.get? ((n + 1) / 2 - 1)).map (fun z => (z : ℚ))
  else
    match s.get? (n / 2 - 1), s.get? (n / 2 + 1 - 1) with
    | some a, some b => some (((a : ℚ) + (b : ℚ)) / 2)
    | _, _ => none

/-! ## Rebuild traces of the derived tables

`build_joined_tables` (`ingest_ppd.py` lines 196–250) and the tile build
(`build_heatmap_tiles.py` lines 40–77) both rebuild their result tables with
`DROP TABLE IF EXISTS` followed by `CREATE TABLE ... AS SELECT` on the live
table name.  The spec's concurrency model (§5) lets another process read
between any two statements, so the observable states of a rebuild are the
database states after each statement. -/

/-- A database restricted to name → row-list tables of one row type. -/
abbrev Db (α : Type) : Type := List (String × α)

/-- The two statement forms the rebuilds use. -/
inductive SqlStep (α : Type) where
  | dropIfExists (name : String)
  | createAs (name : String) (rows : α)

/-- Effect of one statement on the database. -/
def applySqlStep (db : Db α) : SqlStep α → Db α
  | .dropIfExists n => db.filter (fun e => !(e.1 == n))
  | .createAs n rows => (n, rows) :: db

/-- Every observable state while running `steps` in order, the initial state
first and the state after each statement following. -/
def sqlStates (db : Db α) : List (SqlStep α) → List (Db α)
  | [] => [db]
  | step :: steps => db :: sqlStates (applySqlStep db step) steps

/-- Whether table `n` exists in the database. -/
def tableExistsIn (db : Db α) (n : String) : Bool :=
  db.any (fun e => e.1 == n)

/-- The statement sequence of `build_joined_tables` (lines 199–250): drop
then re-create `ppd_sales_geo` from the join, and, when the region reference
table exists (`region = some rg`), drop then re-create
`ppd_sales_geo_region` from the join against it.  No shadow table and no
rename appear in the source. -/
def buildJoinedSteps (ppd : List SalesRow) (geo : List GeoRecord)
    (region : Option (List GeoRecord)) : List (SqlStep (List JoinedRow)) :=
  [.dropIfExists "ppd_sales_geo", .createAs "ppd_sales_geo" (joinGeo ppd geo)]
  ++ (match region with
      | some rg =>
        [.dropIfExists "ppd_sales_geo_region",
         .createAs "ppd_sales_geo_region" (joinGeo ppd rg)]
      | none => [])

/-- The statement sequence of the tile build (`build_heatmap_tiles.py`
lines 40–77): drop then re-create `heatmap_tiles` from the chosen source
rows. -/
def buildTilesSteps (src : List JoinedRow) : List (SqlStep (List Tile)) :=
  [.dropIfExists "heatmap_tiles", .createAs "heatmap_tiles" (buildTiles src)]

/-! ## Concrete inputs used by the claim theorems and witnesses -/

/-- A well-formed reference csv row for postcode `AB1 2CD` with blank
coordinate and admin-area columns. -/
def rowAB : OnspdRow :=
  { pcds := some "AB1 2CD", pcd := some "", lat := some "", long := some "",
    lon := some "", ladcd := some "", ladnm := some "" }

/-- A well-formed reference csv row for postcode `ZZ9 9ZZ` with blank
coordinate and admin-area columns. -/
def rowZZ : OnspdRow :=
  { pcds := some "ZZ9 9ZZ", pcd := some "", lat := some "", long := some "",
    lon := some "", ladcd := some "", ladnm := some "" }

/-- A reference csv row whose postcode columns are both empty. -/
def rowNoPc : OnspdRow :=
  { pcds := some "", pcd := some "", lat := some "", long := some "",
    lon := some "", ladcd := some "", ladnm := some "" }

/-- A reference csv row whose raw `pcds` field is three spaces — non-empty,
hence truthy in Python, but blank after normalisation. -/
def rowSpacesPc : OnspdRow :=
  { pcds := some "   ", pcd := some "", lat := some "", long := some "",
    lon := some "", ladcd := some "", ladnm := some "" }

/-- First (in sorted order) candidate input file of the reference loader. -/
def fileA : CsvFile := ("a.csv", [rowAB])

/-- Second candidate input file of the reference loader; its single row has
postcode `ZZ9 9ZZ`. -/
def fileB : CsvFile := ("b.csv", [rowZZ])

/-- An input with one empty-postcode row between two good rows. -/
def rowsWithEmptyPc : List OnspdRow := [rowAB, rowNoPc, rowZZ]

/-- A headerless transaction csv first row: `{GUID},100000,2025-01-01,...`. -/
def guidRow : List String :=
  ["{F2318B52-4C7C-4E04-B98C-98B6391C87E0}", "100000", "2025-01-01",
   "EC1A 1BB", "D", "N", "F"]

/-- A transaction csv row whose price field is the negative integer `-100`. -/
def negPriceRow : List String :=
  ["id-1", "-100", "2025-01-01", "EC1A 1BB", "D", "N", "F"]

/-- A transaction whose postcode normalises to `AB12CD`. -/
def txAB : SalesRow :=
  { transaction_id := "tx-1", price := 250000, transfer_date := "2025-01-01",
    postcode := "AB12CD", property_type := some "D", new_build := some "N",
    tenure := some "F", paon := none, saon := none, street := none,
    locality := none, town := none, district := none, county := none,
    ppd_category_type := none, record_status := none }

/-- A reference record for `AB12CD` whose latitude is null. -/
def geoABNullLat : GeoRecord :=
  { postcode := "AB12CD", lat := none, lon := some 0, ladcd := none,
    ladnm := some "Worcester" }

/-- A reference record for another postcode with full coordinates. -/
def geoCD : GeoRecord :=
  { postcode := "CD34EF", lat := some 52, lon := some 0, ladcd := none,
    ladnm := some "Worcester" }

/-- A joined row at integer coordinates `(52, 0)`; all five/four-row cell
examples use this maker. -/
def mkCellRow (id : String) (price : Int) : JoinedRow :=
  { transaction_id := id, price := price, transfer_date := "2025-01-01",
    postcode := "AB12CD", property_type := none, new_build := none,
    tenure := none, lat := 52, lon := 0, ladnm := none }

/-- Four joined rows falling in one grid cell. -/
def fourRowCell : List JoinedRow :=
  [mkCellRow "t1" 100, mkCellRow "t2" 200, mkCellRow "t3" 300,
   mkCellRow "t4" 400]

/-- Five joined rows falling in one grid cell. -/
def fiveRowCell : List JoinedRow :=
  [mkCellRow "t1" 100, mkCellRow "t2" 200, mkCellRow "t3" 300,
   mkCellRow "t4" 400, mkCellRow "t5" 500]

/-- The parsed record of `rowAB`. -/
def geoRecAB : GeoRecord :=
  { postcode := "AB12CD", lat := none, lon := none, ladcd := none, ladnm := none }

/-- The parsed record of `rowZZ`. -/
def geoRecZZ : GeoRecord :=
  { postcode := "ZZ99ZZ", lat := none, lon := none, ladcd := none, ladnm := none }

/-- The reference table produced by one loader run on `[fileA]` from the
empty table. -/
def tableAfterFileA : GeoTable :=
  match onspdMain [fileA] emptyGeoTable with
  | .ok t => t
  | .error _ => emptyGeoTable

/-! ## Theorems -/

/-- Dropping a table makes its name unresolvable: lookup after the
`dropIfExists` filter is `none`. -/
theorem lookup_drop_none {α : Type} (db : Db α) (n : String) :
    (db.filter (fun e => !(e.1 == n))).lookup n = none := by
  induction db with
  | nil => rfl
  | cons e rest ih =>
    by_cases h : e.1 = n
    · simpa [List.filter, h] using ih
    · have hb : (e.1 == n) = false := beq_false_of_ne h
      have hb2 : (n == e.1) = false := beq_false_of_ne (Ne.symm h)
      simp [List.filter, hb, List.lookup, hb2, ih]

/-- The initial state is observable in every trace. -/
theorem mem_sqlStates_self {α : Type} (db : Db α) (steps : List (SqlStep α)) :
    db ∈ sqlStates db steps := by
  cases steps with
  | nil => simp [sqlStates]
  | cons a rest => simp [sqlStates]

/-- A state observable after a statement is observable in the whole trace. -/
theorem mem_sqlStates_tail {α : Type} (db : Db α) (a : SqlStep α)
    (steps : List (SqlStep α)) (s : Db α)
    (h : s ∈ sqlStates (applySqlStep db a) steps) :
    s ∈ sqlStates db (a :: steps) := by
  simp only [sqlStates, List.mem_cons]
  exact Or.inr h

/-- C2: the claim that every derived-table rebuild goes through a shadow
table and an atomic swap fails on the code: each rebuild issues `DROP TABLE
IF EXISTS` followed by `CREATE TABLE ... AS` on the live table name, so for
every rebuild of the full joined table, the region joined table and the tile
table there is an observable intermediate state in which the table does not
exist — a reader scheduled there sees the table dropped. -/
theorem derived_table_rebuild_exposes_dropped_state
    (ppd : List SalesRow) (geo rg : List GeoRecord)
    (dbJ : Db (List JoinedRow)) (dbT : Db (List Tile)) (src : List JoinedRow) :
    (∃ s ∈ sqlStates dbJ (buildJoinedSteps ppd geo (some rg)),
        s.lookup "ppd_sales_geo" = none)
    ∧ (∃ s ∈ sqlStates dbJ (buildJoinedSteps ppd geo (some rg)),
        s.lookup "ppd_sales_geo_region" = none)
    ∧ (∃ s ∈ sqlStates dbT (buildTilesSteps src),
        s.lookup "heatmap_tiles" = none) := by
  refine ⟨⟨applySqlStep dbJ (.dropIfExists "ppd_sales_geo"), ?_, ?_⟩,
          ⟨applySqlStep
            (applySqlStep (applySqlStep dbJ (.dropIfExists "ppd_sales_geo"))
              (.createAs "ppd_sales_geo" (joinGeo ppd geo)))
            (.dropIfExists "ppd_sales_geo_region"), ?_, ?_⟩,
          ⟨applySqlStep dbT (.dropIfExists "heatmap_tiles"), ?_, ?_⟩⟩
  · exact mem_sqlStates_tail _ _ _ _ (mem_sqlStates_self _ _)
  · exact lookup_drop_none dbJ "ppd_sales_geo"
  · exact mem_sqlStates_tail _ _ _ _ (mem_sqlStates_tail _ _ _ _
      (mem_sqlStates_tail _ _ _ _ (mem_sqlStates_self _ _)))
  · exact lookup_drop_none _ "ppd_sales_geo_region"
  · exact mem_sqlStates_tail _ _ _ _ (mem_sqlStates_self _ _)
  · exact lookup_drop_none dbT "heatmap_tiles"

/-- C5: the first transaction csv row is discarded exactly when its joined
lower-cased text contains both "transaction" and "identifier", or both
"price" and "postcode", as substrings; otherwise it is processed as data —
in particular a `{GUID},100000,2025-01-01,...` first row is data. -/
theorem first_row_discarded_iff_header_text :
    (∀ first rest, ppdDataRows (first :: rest) =
        .ok (if (containsSub (joinedLower first) "transaction".data
                  && containsSub (joinedLower first) "identifier".data)
                || (containsSub (joinedLower first) "price".data
                  && containsSub (joinedLower first) "postcode".data)
             then rest else first :: rest))
    ∧ detect_header guidRow = false
    ∧ (∀ rest, ppdDataRows (guidRow :: rest) = .ok (guidRow :: rest)) := by
  refine ⟨?_, by decide, ?_⟩
  · intro first rest
    cases first with
    | nil =>
      have h1 : containsSub (joinedLower []) "transaction".data = false := by decide
      have h2 : containsSub (joinedLower []) "price".data = false := by decide
      simp [ppdDataRows, detect_header, h1, h2]
    | cons hd tl =>
      simp [ppdDataRows, detect_header, List.isEmpty]
  · intro rest
    have h : detect_header guidRow = false := by decide
    simp [ppdDataRows, h]

/-- C3 counterexample: a row whose price field is the negative integer
`-100` — which does not parse as a non-negative integer — passes the per-row
checks and is written with its negative price, instead of being rejected. -/
theorem negative_price_row_accepted :
    (processPpdRow negPriceRow).isSome = true
    ∧ (processPpdRow negPriceRow).map SalesRow.price = some (-100)
    ∧ pyInt "-100" = some (-100)
    ∧ (-100 : Int) < 0 := by decide

/-- C3 (amended): a transaction csv row is rejected when its price field
does not parse as a Python integer at all (sign permitted) — the check in
the code is `int(...)`, which accepts negative integers. -/
theorem unparsable_price_row_rejected (row : List String)
    (h : pyInt (csvField row 1) = none) : processPpdRow row = none := by
  by_cases h7 : row.length < 7
  · simp [processPpdRow, h7]
  · by_cases ht : csvField row 0 = ""
    · simp [processPpdRow, h7, ht]
    · simp [processPpdRow, h7, ht, h]

/-- Witness for the amended C3 at the concrete row with price `abc`. -/
theorem unparsable_price_row_rejected_witness :
    processPpdRow ["id-2", "abc", "2025-01-01", "EC1A 1BB", "D", "N", "F"] = none :=
  unparsable_price_row_rejected
    ["id-2", "abc", "2025-01-01", "EC1A 1BB", "D", "N", "F"] (by decide)

/-- C6 counterexample: on an input with one empty-postcode row between two
good rows the loader's only counters are the upsert total (2) and the row
count (3); neither equals the number of skipped rows (1) — the skipped row
is not counted as skipped anywhere. -/
theorem skipped_rows_not_counted :
    ingestGeoTotal rowsWithEmptyPc = .ok 2
    ∧ rowsWithEmptyPc.length = 3
    ∧ skippedGeoRows rowsWithEmptyPc = 1
    ∧ (2 : Nat) ≠ 1 ∧ (3 : Nat) ≠ 1 := by decide

/-- C6 (amended): a reference csv row with a falsy raw postcode is skipped
silently and never aborts the run: the run's table result and its upsert
total are exactly those of the remaining rows, and no skipped-row count is
kept. -/
theorem empty_postcode_row_skipped_silently (r : OnspdRow) (rows : List OnspdRow)
    (t : GeoTable) (h : pcRaw r = "") :
    ingestGeoCsv (r :: rows) t = ingestGeoCsv rows t
    ∧ ingestGeoTotal (r :: rows) = ingestGeoTotal rows := by
  have hp : parseOnspdRow r = .ok none := by
    unfold parseOnspdRow
    simp only [h, if_pos]
    rfl
  exact ⟨by simp [ingestGeoCsv, hp], by simp [ingestGeoTotal, hp]⟩

/-- Witness for the amended C6 at the concrete empty-postcode row. -/
theorem empty_postcode_row_skipped_silently_witness :
    ingestGeoCsv [rowNoPc, rowAB] emptyGeoTable = ingestGeoCsv [rowAB] emptyGeoTable
    ∧ ingestGeoTotal [rowNoPc, rowAB] = ingestGeoTotal [rowAB] :=
  empty_postcode_row_skipped_silently rowNoPc [rowAB] emptyGeoTable (by decide)

/-- Every character of `stripChars l` is a character of `l`. -/
theorem mem_of_mem_stripChars {c : Char} {l : List Char}
    (h : c ∈ stripChars l) : c ∈ l := by
  unfold stripChars at h
  rw [List.mem_reverse] at h
  have h1 := (List.dropWhile_sublist (l := (l.dropWhile isPySpace).reverse)
    (p := isPySpace)).subset h
  rw [List.mem_reverse] at h1
  exact (List.dropWhile_sublist (l := l) (p := isPySpace)).subset h1

/-- Normalising an all-space string yields the empty string: upper-casing
keeps every character a space and the space filter then removes them all. -/
theorem normalise_postcode_all_spaces (s : String)
    (hsp : ∀ c ∈ s.data, c = ' ') : normalise_postcode s = "" := by
  unfold normalise_postcode
  have hnil : ((stripChars s.data).map Char.toUpper).filter (fun c => !(c == ' ')) = [] := by
    rw [List.filter_eq_nil_iff]
    intro a ha
    rcases List.mem_map.mp ha with ⟨c, hc, rfl⟩
    have : c = ' ' := hsp c (mem_of_mem_stripChars hc)
    subst this
    decide
  rw [hnil]

/-- C10: a reference csv row whose raw postcode field is non-empty but
consists solely of spaces is not skipped — the emptiness check is applied to
the raw field before normalisation — and (with well-formed coordinate
fields, as the reference csv format guarantees) it is upserted with the
empty string as its postcode key. -/
theorem spaces_only_postcode_not_skipped (r : OnspdRow) (la lo : Option ℚ)
    (hne : pcRaw r ≠ "")
    (hsp : ∀ c ∈ (pcRaw r).data, c = ' ')
    (hlat : optFloat (latField r) = .ok la)
    (hlon : optFloat (lonField r) = .ok lo) :
    parseOnspdRow r =
      .ok (some { postcode := "", lat := la, lon := lo,
                  ladcd := optStrField r.ladcd, ladnm := optStrField r.ladnm }) := by
  have hn : normalise_postcode (pcRaw r) = "" := by
    apply normalise_postcode_all_spaces
    exact hsp
  unfold parseOnspdRow
  simp [hne, hlat, hlon, hn]
  rfl

/-- Witness for C10 at the three-space postcode row. -/
theorem spaces_only_postcode_not_skipped_witness :
    parseOnspdRow rowSpacesPc =
      .ok (some { postcode := "", lat := none, lon := none,
                  ladcd := optStrField rowSpacesPc.ladcd,
                  ladnm := optStrField rowSpacesPc.ladnm }) :=
  spaces_only_postcode_not_skipped rowSpacesPc none none
    (by decide) (by decide) (by decide) (by decide)

/-- A parse error in the rows aborts the ingest with the same error. -/
theorem ingestGeoCsv_of_parse_error (rows : List OnspdRow) (e : String)
    (t : GeoTable) (h : parsedGeoOps rows = .error e) :
    ingestGeoCsv rows t = .error e := by
  induction rows generalizing t with
  | nil => simp [parsedGeoOps] at h
  | cons r rest ih =>
    rw [parsedGeoOps] at h
    rw [ingestGeoCsv]
    cases hp : parseOnspdRow r with
    | error e2 =>
      rw [hp] at h
      have h2 : (Except.error e2 : Except String (List GeoRecord)) = .error e := h
      injection h2 with h3
      subst h3
      rfl
    | ok og =>
      cases og with
      | none =>
        rw [hp] at h
        exact ih t h
      | some g =>
        rw [hp] at h
        cases hr : parsedGeoOps rest with
        | error e2 =>
          rw [hr] at h
          have h2 : (Except.error e2 : Except String (List GeoRecord)) = .error e := h
          injection h2 with h3
          subst h3
          exact ih (upsertGeo t g) hr
        | ok ops =>
          rw [hr] at h
          simp [Except.map] at h

/-- A successful ingest is the fold of the parsed upserts over the starting
table. -/
theorem ingestGeoCsv_of_parse_ok (rows : List OnspdRow) (ops : List GeoRecord)
    (t : GeoTable) (h : parsedGeoOps rows = .ok ops) :
    ingestGeoCsv rows t = .ok (applyGeoOps ops t) := by
  induction rows generalizing ops t with
  | nil =>
    rw [parsedGeoOps] at h
    injection h with h2
    subst h2
    rfl
  | cons r rest ih =>
    rw [parsedGeoOps] at h
    rw [ingestGeoCsv]
    cases hp : parseOnspdRow r with
    | error e =>
      rw [hp] at h
      have h2 : (Except.error e : Except String (List GeoRecord)) = .ok ops := h
      exact absurd h2 (by simp)
    | ok og =>
      cases og with
      | none =>
        rw [hp] at h
        exact ih ops t h
      | some g =>
        rw [hp] at h
        cases hr : parsedGeoOps rest with
        | error e =>
          rw [hr] at h
          simp [Except.map] at h
        | ok ops2 =>
          rw [hr] at h
          simp only [Except.map] at h
          injection h with h2
          subst h2
          exact ih ops2 (upsertGeo t g) hr

/-- Pointwise value of a fold of upserts: the last record written at the key
if any, else the starting table's value. -/
theorem applyGeoOps_apply (ops : List GeoRecord) (t : GeoTable) (k : String) :
    applyGeoOps ops t k =
      match applyGeoOps ops emptyGeoTable k with
      | some v => some v
      | none => t k := by
  induction ops generalizing t with
  | nil => simp [applyGeoOps, emptyGeoTable]
  | cons g rest ih =>
    show applyGeoOps rest (upsertGeo t g) k = _
    rw [ih (upsertGeo t g)]
    have hr : applyGeoOps (g :: rest) emptyGeoTable k
        = applyGeoOps rest (upsertGeo emptyGeoTable g) k := rfl
    rw [hr, ih (upsertGeo emptyGeoTable g)]
    rcases h : applyGeoOps rest emptyGeoTable k with _ | v
    · unfold upsertGeo emptyGeoTable
      by_cases hk : k = g.postcode <;> simp [hk]
    · rfl

/-- Re-applying the same upsert sequence to its own result changes
nothing: each key ends at its last written record again. -/
theorem applyGeoOps_idem (ops : List GeoRecord) (t : GeoTable) :
    applyGeoOps ops (applyGeoOps ops t) = applyGeoOps ops t := by
  funext k
  rw [applyGeoOps_apply ops (applyGeoOps ops t) k, applyGeoOps_apply ops t k]
  rcases h : applyGeoOps ops emptyGeoTable k with _ | v <;> simp [h]

/-- C9: running the reference loader twice on identical input yields the
table of one run: the loader's file choice is deterministic and every upsert
of the second run rewrites a key to the record it already holds. -/
theorem reference_loader_idempotent (csvs : List CsvFile) (t t1 : GeoTable)
    (h : onspdMain csvs t = .ok t1) : onspdMain csvs t1 = .ok t1 := by
  cases hc : chooseCsvFile csvs with
  | none =>
    unfold onspdMain at h
    rw [hc] at h
    exact absurd h (by simp)
  | some f =>
    unfold onspdMain at h
    rw [hc] at h
    unfold onspdMain
    rw [hc]
    show ingestGeoCsv f.2 t1 = .ok t1
    have h2 : ingestGeoCsv f.2 t = .ok t1 := h
    cases hops : parsedGeoOps f.2 with
    | error e =>
      rw [ingestGeoCsv_of_parse_error f.2 e t hops] at h2
      exact absurd h2 (by simp)
    | ok ops =>
      rw [ingestGeoCsv_of_parse_ok f.2 ops t hops] at h2
      injection h2 with h3
      rw [ingestGeoCsv_of_parse_ok f.2 ops t1 hops, ← h3, applyGeoOps_idem]

/-- Witness for C9: a second run on `fileA` reproduces the table of the
first run unchanged. -/
theorem reference_loader_idempotent_witness :
    onspdMain [fileA] tableAfterFileA = .ok tableAfterFileA :=
  reference_loader_idempotent [fileA] emptyGeoTable tableAfterFileA rfl

/-- C4 counterexample: with the two matching files `a.csv` and `b.csv`
(sorted order, neither ending in `_UK.CSV`) the loader ingests only the
chosen first file: `fileB`'s row parses to a record for key `ZZ99ZZ`, yet
the resulting reference table holds nothing at `ZZ99ZZ` and only `fileA`'s
record at `AB12CD`. -/
theorem second_csv_file_not_loaded :
    ((onspdMain [fileA, fileB] emptyGeoTable).map
        (fun t => (t "ZZ99ZZ", t "AB12CD"))) = .ok (none, some geoRecAB)
    ∧ parseOnspdRow rowZZ = .ok (some geoRecZZ)
    ∧ geoRecZZ.postcode = "ZZ99ZZ" := by decide

/-- A successful `find?` returns the first element satisfying the
predicate: the list splits as a prefix of failures, the found element, and a
remainder. -/
theorem find?_first_split {α : Type} (p : α → Bool) (l : List α) (a : α)
    (h : l.find? p = some a) :
    ∃ pre post, l = pre ++ a :: post ∧ p a = true ∧ ∀ g ∈ pre, p g = false := by
  induction l with
  | nil => simp [List.find?] at h
  | cons x xs ih =>
    by_cases hx : p x = true
    · rw [List.find?_cons_of_pos _ hx] at h
      injection h with h2
      subst h2
      exact ⟨[], xs, rfl, hx, by simp⟩
    · rw [List.find?_cons_of_neg _ (by simpa using hx)] at h
      rcases ih h with ⟨pre, post, hsplit, hpa, hpre⟩
      refine ⟨x :: pre, post, by rw [hsplit]; rfl, hpa, ?_⟩
      intro g hg
      rcases List.mem_cons.mp hg with hgx | hgpre
      · subst hgx
        simpa using hx
      · exact hpre g hgpre

/-- C4 (amended): when at least one csv file matches, the loader ingests
exactly one of them — the first, in the given (sorted) order, whose
upper-cased name ends in `_UK.CSV`: the files before it all fail that test;
or the first file of the list when no file passes it — rather than loading
every matching file. -/
theorem loader_ingests_single_chosen_file (csvs : List CsvFile) (t : GeoTable)
    (h : csvs ≠ []) :
    ∃ f ∈ csvs, onspdMain csvs t = ingestGeoCsv f.2 t
      ∧ ((∃ pre post, csvs = pre ++ f :: post
            ∧ endsWithChars (f.1.data.map Char.toUpper) "_UK.CSV".data = true
            ∧ ∀ g ∈ pre,
                endsWithChars (g.1.data.map Char.toUpper) "_UK.CSV".data = false)
         ∨ ((∀ g ∈ csvs,
               endsWithChars (g.1.data.map Char.toUpper) "_UK.CSV".data = false)
            ∧ csvs.head? = some f)) := by
  cases hf : csvs.find?
      (fun f => endsWithChars (f.1.data.map Char.toUpper) "_UK.CSV".data) with
  | some f =>
    refine ⟨f, List.mem_of_find?_eq_some hf, ?_, Or.inl ?_⟩
    · unfold onspdMain chooseCsvFile
      rw [hf]
    · rcases find?_first_split _ csvs f hf with ⟨pre, post, hsplit, hpa, hpre⟩
      exact ⟨pre, post, hsplit, hpa, hpre⟩
  | none =>
    cases csvs with
    | nil => exact absurd rfl h
    | cons a rest =>
      refine ⟨a, List.mem_cons_self a rest, ?_, Or.inr ⟨?_, rfl⟩⟩
      · unfold onspdMain chooseCsvFile
        rw [hf]
        rfl
      · intro g hg
        have hng := List.find?_eq_none.mp hf g hg
        simpa using hng

/-- Witness for the amended C4 at the one-file input. -/
theorem loader_ingests_single_chosen_file_witness :
    ∃ f ∈ [fileA], onspdMain [fileA] emptyGeoTable = ingestGeoCsv f.2 emptyGeoTable
      ∧ ((∃ pre post, [fileA] = pre ++ f :: post
            ∧ endsWithChars (f.1.data.map Char.toUpper) "_UK.CSV".data = true
            ∧ ∀ g ∈ pre,
                endsWithChars (g.1.data.map Char.toUpper) "_UK.CSV".data = false)
         ∨ ((∀ g ∈ [fileA],
               endsWithChars (g.1.data.map Char.toUpper) "_UK.CSV".data = false)
            ∧ List.head? [fileA] = some f)) :=
  loader_ingests_single_chosen_file [fileA] emptyGeoTable (by decide)

/-- A transaction with no matching non-null-coordinate reference record
contributes no row to the join: every joined row carries the transaction id
of some matching pair. -/
theorem joinGeo_no_match (ppd : List SalesRow) (geo2 : List GeoRecord)
    (tx : SalesRow)
    (hppdU : (ppd.map SalesRow.transaction_id).Nodup) (htx : tx ∈ ppd)
    (hnomatch : ∀ g2 ∈ geo2, g2.postcode = tx.postcode →
      g2.lat = none ∨ g2.lon = none) :
    ∀ j ∈ joinGeo ppd geo2, j.transaction_id ≠ tx.transaction_id := by
  intro j hj heq
  rcases List.mem_flatMap.mp hj with ⟨p, hp, hjp⟩
  rcases List.mem_filterMap.mp hjp with ⟨g2, hg2, hfg⟩
  rcases hla : g2.lat with _ | la <;> rcases hlo : g2.lon with _ | lo <;>
    rw [hla, hlo] at hfg
  · exact absurd hfg (by simp)
  · exact absurd hfg (by simp)
  · exact absurd hfg (by simp)
  · have hfg2 : (if p.postcode = g2.postcode then some
        { transaction_id := p.transaction_id, price := p.price,
          transfer_date := p.transfer_date, postcode := p.postcode,
          property_type := p.property_type, new_build := p.new_build,
          tenure := p.tenure, lat := la, lon := lo, ladnm := g2.ladnm }
        else (none : Option JoinedRow)) = some j := hfg
    by_cases hpg : p.postcode = g2.postcode
    · rw [if_pos hpg] at hfg2
      injection hfg2 with hj2
      have hid : p.transaction_id = tx.transaction_id := by rw [← heq, ← hj2]
      have hptx : p = tx := List.inj_on_of_nodup_map hppdU hp htx hid
      have hg2pc : g2.postcode = tx.postcode := by rw [← hpg, hptx]
      rcases hnomatch g2 hg2 hg2pc with h1 | h1
      · rw [hla] at h1; exact absurd h1 (by simp)
      · rw [hlo] at h1; exact absurd h1 (by simp)
    · rw [if_neg hpg] at hfg2
      exact absurd hfg2 (by simp)

/-- C7: a transaction whose postcode resolves to a reference record with a
null latitude or longitude appears in neither the full joined table nor the
region joined table: both are inner joins on postcode restricted to
reference records with non-null coordinates, and the reference postcode key
is unique. -/
theorem null_coordinate_reference_excluded_from_joins
    (ppd : List SalesRow) (geo : List GeoRecord) (tx : SalesRow) (g : GeoRecord)
    (hgeoU : (geo.map GeoRecord.postcode).Nodup)
    (hppdU : (ppd.map SalesRow.transaction_id).Nodup)
    (htx : tx ∈ ppd) (hg : g ∈ geo)
    (hpc : g.postcode = tx.postcode)
    (hnull : g.lat = none ∨ g.lon = none) :
    (∀ j ∈ joinGeo ppd geo, j.transaction_id ≠ tx.transaction_id)
    ∧ (∀ j ∈ joinGeo ppd (build_region geo),
        j.transaction_id ≠ tx.transaction_id) := by
  constructor
  · apply joinGeo_no_match ppd geo tx hppdU htx
    intro g2 hg2 hpc2
    have hgg : g2 = g := List.inj_on_of_nodup_map hgeoU hg2 hg (by rw [hpc2, hpc])
    rw [hgg]
    exact hnull
  · apply joinGeo_no_match ppd (build_region geo) tx hppdU htx
    intro g2 hg2 hpc2
    rcases List.mem_filter.mp hg2 with ⟨hg2geo, hpred⟩
    have hgg : g2 = g := List.inj_on_of_nodup_map hgeoU hg2geo hg (by rw [hpc2, hpc])
    subst hgg
    rcases Bool.and_eq_true_iff.mp hpred with ⟨h12, hlon⟩
    rcases Bool.and_eq_true_iff.mp h12 with ⟨hnm, hlat⟩
    rcases hnull with h1 | h1
    · rw [h1] at hlat; exact absurd hlat (by simp)
    · rw [h1] at hlon; exact absurd hlon (by simp)

/-- Witness for C7: one transaction and one reference record with matching
postcode and null latitude produce empty joins for its id. -/
theorem null_coordinate_reference_excluded_from_joins_witness :
    (∀ j ∈ joinGeo [txAB] [geoABNullLat],
        j.transaction_id ≠ txAB.transaction_id)
    ∧ (∀ j ∈ joinGeo [txAB] (build_region [geoABNullLat]),
        j.transaction_id ≠ txAB.transaction_id) :=
  null_coordinate_reference_excluded_from_joins [txAB] [geoABNullLat]
    txAB geoABNullLat (by decide) (by decide) (by decide) (by decide)
    (by decide) (Or.inl rfl)

/-- Inserting into the sorted list grows the length by one. -/
theorem length_insertAsc (x : Int) (l : List Int) :
    (insertAsc x l).length = l.length + 1 := by
  induction l with
  | nil => rfl
  | cons y ys ih =>
    unfold insertAsc
    by_cases h : x ≤ y
    · simp [h]
    · simp [h, ih]

/-- Sorting preserves the number of prices. -/
theorem length_sortPrices (l : List Int) :
    (sortPrices l).length = l.length := by
  induction l with
  | nil => rfl
  | cons x xs ih =>
    show (insertAsc x (sortPrices xs)).length = xs.length + 1
    rw [length_insertAsc, ih]

/-- The SQL median expression computes exactly the spec's rank-rule median:
for odd cell sizes the two picked ranks coincide at the middle rank, for
even sizes they are the two middle ranks and `AVG` halves their sum. -/
theorem tileMedian_eq_rankRuleMedian (l : List Int) :
    tileMedian l = rankRuleMedian l := by
  by_cases h0 : (sortPrices l).length = 0
  · have hl : l = [] := by
      have hlen := length_sortPrices l
      rw [h0] at hlen
      exact List.length_eq_zero.mp hlen.symm
    rw [hl]
    decide
  · simp only [tileMedian, rankRuleMedian]
    rcases Nat.even_or_odd (sortPrices l).length with ⟨k, hk⟩ | ⟨k, hk⟩
    · -- even size k + k, with k ≥ 1
      have hk1 : 1 ≤ k := by omega
      have e1 : ((sortPrices l).length + 2) / 2 = k + 1 := by omega
      have e2 : ((sortPrices l).length + 1) / 2 = k := by omega
      obtain ⟨a, ha⟩ : ∃ a, (sortPrices l).get? (k - 1) = some a := by
        have hlt : k - 1 < (sortPrices l).length := by omega
        exact ⟨_, List.get?_eq_get hlt⟩
      obtain ⟨b, hb⟩ : ∃ b, (sortPrices l).get? k = some b := by
        have hlt : k < (sortPrices l).length := by omega
        exact ⟨_, List.get?_eq_get hlt⟩
      have hne : ¬(k + 1 = k) := by omega
      have hpar : ¬((sortPrices l).length % 2 = 1) := by omega
      have e4 : (sortPrices l).length / 2 = k := by omega
      rw [e1, e2, if_neg hne, if_neg h0, if_neg hpar, e4]
      have e5 : k + 1 - 1 = k := by omega
      simp only [List.filterMap_cons, List.filterMap_nil, e5, ha, hb]
      norm_num
    · -- odd size 2 * k + 1
      have e1 : ((sortPrices l).length + 2) / 2 = k + 1 := by omega
      have e2 : ((sortPrices l).length + 1) / 2 = k + 1 := by omega
      obtain ⟨a, ha⟩ : ∃ a, (sortPrices l).get? k = some a := by
        have hlt : k < (sortPrices l).length := by omega
        exact ⟨_, List.get?_eq_get hlt⟩
      rw [e1, e2, if_pos rfl, if_neg h0, if_pos (by omega : (sortPrices l).length % 2 = 1)]
      have e5 : k + 1 - 1 = k := by omega
      simp only [List.filterMap_cons, List.filterMap_nil, e5, ha]
      norm_num

/-- Membership in the tile table: exactly the distinct bin keys whose cell
holds at least `MIN_SAMPLES` rows, with the aggregates computed from the
cell's prices. -/
theorem mem_buildTiles (rows : List JoinedRow) (t : Tile) :
    t ∈ buildTiles rows ↔
      ∃ b, b ∈ (rows.map binKey).dedup ∧ MIN_SAMPLES ≤ (cellPrices rows b).length
        ∧ t = { lat_bin := b.1, lon_bin := b.2,
                sales_count := (cellPrices rows b).length,
                avg_price := tileAvg (cellPrices rows b),
                median_price := tileMedian (cellPrices rows b) } := by
  unfold buildTiles
  rw [List.mem_filterMap]
  constructor
  · rintro ⟨b, hb, hf⟩
    by_cases hc : MIN_SAMPLES ≤ (cellPrices rows b).length
    · rw [if_pos hc] at hf
      injection hf with hf3
      exact ⟨b, hb, hc, hf3.symm⟩
    · rw [if_neg hc] at hf
      exact absurd hf (by simp)
  · rintro ⟨b, hb, hc, ht⟩
    refine ⟨b, hb, ?_⟩
    rw [if_pos hc, ht]

/-- C1: for every emitted tile, `median_price` is the exact median of the
cell's prices under the rank rule (sort ascending, ranks `1..n`; odd `n` →
value at rank `(n+1)/2`, even `n` → average of the values at ranks `n/2` and
`n/2 + 1`); in particular prices `[100, 200, 300]` give median `200` and
`[100, 200, 300, 400]` give `250`. -/
theorem tile_median_is_exact_rank_rule_median :
    (∀ rows : List JoinedRow, ∀ t ∈ buildTiles rows,
        t.median_price = rankRuleMedian (cellPrices rows (t.lat_bin, t.lon_bin)))
    ∧ tileMedian [100, 200, 300] = some 200
    ∧ tileMedian [100, 200, 300, 400] = some 250 := by
  refine ⟨?_, by with_unfolding_all decide, by with_unfolding_all decide⟩
  intro rows t ht
  rcases (mem_buildTiles rows t).mp ht with ⟨b, _, _, ht2⟩
  obtain ⟨b1, b2⟩ := b
  subst ht2
  show tileMedian (cellPrices rows (b1, b2)) = rankRuleMedian (cellPrices rows (b1, b2))
  exact tileMedian_eq_rankRuleMedian _

/-- C8: with minimum sample size 5 a tile is emitted for a cell exactly when
at least 5 rows bin into it; a four-row cell yields no tile at all and a
five-row cell yields one. -/
theorem tile_emitted_iff_at_least_five_rows :
    (∀ (rows : List JoinedRow) (b : ℚ × ℚ),
        (∃ t ∈ buildTiles rows, t.lat_bin = b.1 ∧ t.lon_bin = b.2) ↔
          MIN_SAMPLES ≤ (cellPrices rows b).length)
    ∧ buildTiles fourRowCell = []
    ∧ (buildTiles fiveRowCell).length = 1 := by
  refine ⟨?_, by with_unfolding_all decide, by with_unfolding_all decide⟩
  intro rows b
  constructor
  · rintro ⟨t, ht, h1, h2⟩
    rcases (mem_buildTiles rows t).mp ht with ⟨b2, _, hc, ht2⟩
    obtain ⟨x, y⟩ := b
    obtain ⟨x2, y2⟩ := b2
    subst ht2
    have hx : x2 = x := h1
    have hy : y2 = y := h2
    subst hx
    subst hy
    exact hc
  · intro hc
    have hne : cellPrices rows b ≠ [] := by
      intro h
      rw [h] at hc
      simp [MIN_SAMPLES] at hc
    obtain ⟨p, hp⟩ : ∃ p, p ∈ rows.filter (fun r => binKey r == b) := by
      rcases List.exists_mem_of_ne_nil _ hne with ⟨z, hz⟩
      rcases List.mem_map.mp hz with ⟨p, hp, _⟩
      exact ⟨p, hp⟩
    have hpmem : p ∈ rows := (List.mem_filter.mp hp).1
    have hpkey : binKey p = b := by
      have hpb := (List.mem_filter.mp hp).2
      simpa using hpb
    have hbdedup : b ∈ (rows.map binKey).dedup := by
      rw [List.mem_dedup]
      exact List.mem_map.mpr ⟨p, hpmem, hpkey⟩
    exact ⟨_, (mem_buildTiles rows _).mpr ⟨b, hbdedup, hc, rfl⟩, rfl, rfl⟩
